import Mathlib

/-!
Verification of the invoice state-synchronization layer of the
InvoiceAnalisis frontend (the Pinia invoice store in
`src/frontend/src/stores/auth.ts`, second store document, together with the
entity model of `src/types/invoice.ts`).

The store is embedded shallowly: each action becomes a pure function from
the store state and the gateway's response to the new store state paired
with the value returned (or the error re-raised) to the caller.  Date
strings are embedded by the epoch value `new Date(s).getTime()` yields, so
`uploadedAt` is an `Int`.  An optional field that may be absent from a
JSON-decoded object is an `Option`; JavaScript object spread
`{...a, ...b}` keeps `a`'s value exactly when the key is absent from `b`,
which is `b.f <|> a.f` on `Option` fields.
-/

namespace InvoiceAnalisis

/-- `status ∈ {processing, processed, failed}` from `src/types/invoice.ts`. -/
inductive InvoiceStatus where
  | processing
  | processed
  | failed
deriving DecidableEq, Repr

/-- A recorded vote, `'upvote' | 'downvote'` (`FieldFeedback.vote`). -/
inductive Vote where
  | upvote
  | downvote
deriving DecidableEq, Repr

/-- A requested vote, `'upvote' | 'downvote' | 'remove'`
(the `vote` argument of `submitFieldFeedback`). -/
inductive FeedbackVote where
  | upvote
  | downvote
  | remove
deriving DecidableEq, Repr

/-- `ocrEngine ∈ {document_ai, tesseract}` from `src/types/invoice.ts`. -/
inductive OcrEngine where
  | document_ai
  | tesseract
deriving DecidableEq, Repr

/-- `LineItem` from `src/types/invoice.ts`. -/
structure LineItem where
  description : String
  quantity : Rat
  unitPrice : Rat
  totalPrice : Rat
deriving DecidableEq, Repr

/-- `FieldFeedback` from `src/types/invoice.ts`. -/
structure FieldFeedback where
  vote : Vote
  userId : String
  timestamp : String
deriving DecidableEq, Repr

/-- The `fieldFeedback` object: a map from field name to `FieldFeedback`,
embedded as an association list. -/
abbrev FeedbackMap := List (String × FieldFeedback)

/-- `Invoice` from `src/types/invoice.ts`.  Required fields of the
interface are plain, optional (`?`) fields are `Option`.  `uploadedAt`
(and `processedAt`) are embedded by their epoch value. -/
structure Invoice where
  id : String
  userId : String
  fileName : String
  storageUrl : String
  status : InvoiceStatus
  invoiceNumber : Option String := none
  invoiceDate : Option String := none
  dueDate : Option String := none
  vendorName : Option String := none
  supplierName : Option String := none
  supplierRuc : Option String := none
  totalAmount : Option Rat := none
  taxAmount : Option Rat := none
  subtotal : Option Rat := none
  currency : Option String := none
  lineItems : Option (List LineItem) := none
  ocrEngine : Option OcrEngine := none
  ocrConfidence : Option Rat := none
  fieldFeedback : Option FeedbackMap := none
  uploadedAt : Int
  processedAt : Option Int := none
  errorMessage : Option String := none
deriving DecidableEq, Repr

/-- `InvoiceResponse` from `src/types/invoice.ts`: the upload
acknowledgment stub returned by `POST /api/invoices/upload`. -/
structure InvoiceResponse where
  invoiceId : String
  fileName : String
  status : String
  message : Option String := none
deriving DecidableEq, Repr

/-- `InvoiceListResponse` from `src/types/invoice.ts`. -/
structure InvoiceListResponse where
  invoices : List Invoice
  total : Nat
deriving DecidableEq, Repr

/-- `InvoiceQuery` from `src/types/invoice.ts`. -/
structure InvoiceQuery where
  sortBy : Option String := none
  order : Option String := none
  page : Option Nat := none
  limit : Option Nat := none
deriving DecidableEq, Repr

/-- A gateway failure as observed by a store catch block: only its
`message` is consulted (`err.message || fallback`); an absent/empty
message is the empty string. -/
structure ApiErr where
  message : String
deriving DecidableEq, Repr

/-- `err.message || fallback`: the fallback literal is used exactly when
the error's message is falsy (empty). -/
def errText (e : ApiErr) (fallback : String) : String :=
  if e.message = "" then fallback else e.message

/-- The value `submitFieldFeedback` returns on success:
`{ success: true, invoice: updatedInvoice }`. -/
structure FeedbackResult where
  success : Bool
  invoice : Invoice
deriving DecidableEq, Repr

/-- The state of the invoice store (`useInvoiceStore`): refs `invoices`,
`currentInvoice`, `loading`, `error`, `total`. -/
structure InvoiceState where
  invoices : List Invoice
  currentInvoice : Option Invoice
  loading : Bool
  error : Option String
  total : Nat
deriving DecidableEq, Repr

/-- The `sortedInvoices` getter: a sorted copy (`[...invoices.value]`) of
the cached list, descending by `new Date(uploadedAt).getTime()`.
`Array.prototype.sort` is a stable sort and the comparator
`dateB - dateA` orders `a` before `b` exactly when
`b.uploadedAt ≤ a.uploadedAt`; a stable sort is embedded here by
insertion sort, which is stable for this total preorder. -/
def sortedInvoices (s : InvoiceState) : List Invoice :=
  s.invoices.insertionSort (fun a b => b.uploadedAt ≤ a.uploadedAt)

/-- The `processingInvoices` getter. -/
def processingInvoices (s : InvoiceState) : Nat :=
  (s.invoices.filter (fun inv => inv.status = InvoiceStatus.processing)).length

/-- The `processedInvoices` getter. -/
def processedInvoices (s : InvoiceState) : Nat :=
  (s.invoices.filter (fun inv => inv.status = InvoiceStatus.processed)).length

/-- The `failedInvoices` getter. -/
def failedInvoices (s : InvoiceState) : Nat :=
  (s.invoices.filter (fun inv => inv.status = InvoiceStatus.failed)).length

/-- The state of the store after `fetchInvoices` has set
`loading.value = true; error.value = null` but before the gateway
responds. -/
def fetchInvoicesDispatch (s : InvoiceState) : InvoiceState :=
  { s with loading := true, error := none }

/-- `fetchInvoices(query?)`: dispatch, then on success replace `invoices`
and `total` wholesale; on failure record `err.message || 'Failed to fetch
invoices'` and re-raise; `loading` is cleared in `finally`.  The gateway
is a function of the query so that callers' query choice stays visible. -/
def fetchInvoices (s : InvoiceState) (query : Option InvoiceQuery)
    (gw : Option InvoiceQuery → Except ApiErr InvoiceListResponse) :
    InvoiceState × Except ApiErr Unit :=
  let s1 := fetchInvoicesDispatch s
  match gw query with
  | Except.ok r =>
      ({ s1 with invoices := r.invoices, total := r.total, loading := false },
       Except.ok ())
  | Except.error e =>
      ({ s1 with error := some (errText e "Failed to fetch invoices"),
                 loading := false },
       Except.error e)

/-- The state of the store after `uploadInvoice` has set
`loading.value = true; error.value = null`. -/
def uploadInvoiceDispatch (s : InvoiceState) : InvoiceState :=
  { s with loading := true, error := none }

/-- `uploadInvoice(file)`: dispatch, upload via the gateway, then
`await fetchInvoices()` (no query), and return the upload acknowledgment.
Any error — from the upload or from the nested refresh — is caught by the
single catch block, which records `err.message || 'Failed to upload
invoice'` and re-raises; `loading` is cleared in `finally`. -/
def uploadInvoice (s : InvoiceState)
    (uploadResp : Except ApiErr InvoiceResponse)
    (gw : Option InvoiceQuery → Except ApiErr InvoiceListResponse) :
    InvoiceState × Except ApiErr InvoiceResponse :=
  let s1 := uploadInvoiceDispatch s
  match uploadResp with
  | Except.error e =>
      ({ s1 with error := some (errText e "Failed to upload invoice"),
                 loading := false },
       Except.error e)
  | Except.ok r =>
      match fetchInvoices s1 none gw with
      | (s2, Except.ok _) => ({ s2 with loading := false }, Except.ok r)
      | (s2, Except.error e) =>
          ({ s2 with error := some (errText e "Failed to upload invoice"),
                     loading := false },
           Except.error e)

/-- The state of the store after `fetchInvoiceDetail` has set
`loading.value = true; error.value = null`. -/
def fetchInvoiceDetailDispatch (s : InvoiceState) : InvoiceState :=
  { s with loading := true, error := none }

/-- `fetchInvoiceDetail(invoiceId)`: dispatch, then on success replace the
`currentInvoice` slot wholesale and return the invoice; on failure record
`err.message || 'Failed to fetch invoice details'` and re-raise;
`loading` is cleared in `finally`. -/
def fetchInvoiceDetail (s : InvoiceState) (invoiceId : String)
    (resp : Except ApiErr Invoice) : InvoiceState × Except ApiErr Invoice :=
  let s1 := fetchInvoiceDetailDispatch s
  match resp with
  | Except.ok inv =>
      ({ s1 with currentInvoice := some inv, loading := false }, Except.ok inv)
  | Except.error e =>
      ({ s1 with error := some (errText e "Failed to fetch invoice details"),
                 loading := false },
       Except.error e)

/-- The state of the store after `getDownloadUrl` has set
`loading.value = true; error.value = null`. -/
def getDownloadUrlDispatch (s : InvoiceState) : InvoiceState :=
  { s with loading := true, error := none }

/-- `getDownloadUrl(invoiceId)`: pure pass-through; no cache field other
than `loading`/`error` is touched. -/
def getDownloadUrl (s : InvoiceState) (invoiceId : String)
    (resp : Except ApiErr String) : InvoiceState × Except ApiErr String :=
  let s1 := getDownloadUrlDispatch s
  match resp with
  | Except.ok url => ({ s1 with loading := false }, Except.ok url)
  | Except.error e =>
      ({ s1 with error := some (errText e "Failed to get download URL"),
                 loading := false },
       Except.error e)

/-- `clearError()`. -/
def clearError (s : InvoiceState) : InvoiceState :=
  { s with error := none }

/-- `clearCurrentInvoice()`. -/
def clearCurrentInvoice (s : InvoiceState) : InvoiceState :=
  { s with currentInvoice := none }

/-- The reconciler's replacement
`{...local, ...updatedInvoice, fieldFeedback: updatedInvoice.fieldFeedback || {}}`:
a shallow union in which every key present on the response wins, a key
absent from the response keeps the local value, and `fieldFeedback` is
taken from the response outright (absent map becomes the empty map). -/
def mergeInvoice (a b : Invoice) : Invoice where
  id := b.id
  userId := b.userId
  fileName := b.fileName
  storageUrl := b.storageUrl
  status := b.status
  invoiceNumber := b.invoiceNumber <|> a.invoiceNumber
  invoiceDate := b.invoiceDate <|> a.invoiceDate
  dueDate := b.dueDate <|> a.dueDate
  vendorName := b.vendorName <|> a.vendorName
  supplierName := b.supplierName <|> a.supplierName
  supplierRuc := b.supplierRuc <|> a.supplierRuc
  totalAmount := b.totalAmount <|> a.totalAmount
  taxAmount := b.taxAmount <|> a.taxAmount
  subtotal := b.subtotal <|> a.subtotal
  currency := b.currency <|> a.currency
  lineItems := b.lineItems <|> a.lineItems
  ocrEngine := b.ocrEngine <|> a.ocrEngine
  ocrConfidence := b.ocrConfidence <|> a.ocrConfidence
  fieldFeedback := some (b.fieldFeedback.getD [])
  uploadedAt := b.uploadedAt
  processedAt := b.processedAt <|> a.processedAt
  errorMessage := b.errorMessage <|> a.errorMessage

/-- `invoices.value.findIndex(inv => inv.id === invoiceId)` followed by
replacing the found element with its merge against the response: the
first entry whose `id` matches is replaced, everything else is kept. -/
def updateFirst (l : List Invoice) (invoiceId : String) (r : Invoice) :
    List Invoice :=
  match l with
  | [] => []
  | x :: xs =>
      if x.id = invoiceId then mergeInvoice x r :: xs
      else x :: updateFirst xs invoiceId r

/-- The state of the store after `submitFieldFeedback` has set
`error.value = null` (it sets no loading flag). -/
def submitFieldFeedbackDispatch (s : InvoiceState) : InvoiceState :=
  { s with error := none }

/-- `submitFieldFeedback(invoiceId, fieldName, vote)`: dispatch (resetting
`error` only — no loading flag), submit to the gateway, validate the
response (`!updatedInvoice || !updatedInvoice.id` throws `'Invalid
response from server'`, caught by the same catch block), then apply the
replacement to the `currentInvoice` slot when its id equals `invoiceId`
and to the first matching list entry, and return
`{ success: true, invoice: updatedInvoice }`.  The response is an
`Option Invoice` because the decoded body may be null. -/
def submitFieldFeedback (s : InvoiceState) (invoiceId fieldName : String)
    (vote : FeedbackVote) (resp : Except ApiErr (Option Invoice)) :
    InvoiceState × Except ApiErr FeedbackResult :=
  let s1 := submitFieldFeedbackDispatch s
  match resp with
  | Except.error e =>
      ({ s1 with error := some (errText e "Failed to submit feedback") },
       Except.error e)
  | Except.ok none =>
      ({ s1 with error := some "Invalid response from server" },
       Except.error ⟨"Invalid response from server"⟩)
  | Except.ok (some updatedInvoice) =>
      if updatedInvoice.id = "" then
        ({ s1 with error := some "Invalid response from server" },
         Except.error ⟨"Invalid response from server"⟩)
      else
        let s2 :=
          match s1.currentInvoice with
          | some cur =>
              if cur.id = invoiceId then
                { s1 with currentInvoice := some (mergeInvoice cur updatedInvoice) }
              else s1
          | none => s1
        let s3 := { s2 with invoices := updateFirst s2.invoices invoiceId updatedInvoice }
        (s3, Except.ok { success := true, invoice := updatedInvoice })

/-- The status/metadata invariant of §4.2 for one invoice:
`errorMessage` is present exactly when the status is `failed`, and
`processedAt` is present exactly when the status has left `processing`. -/
def statusOk (inv : Invoice) : Prop :=
  (inv.status = InvoiceStatus.failed ↔ inv.errorMessage.isSome = true) ∧
  (inv.status ≠ InvoiceStatus.processing ↔ inv.processedAt.isSome = true)

instance : DecidablePred statusOk := fun inv => by
  unfold statusOk; infer_instance

/-- The status/metadata invariant for the optional current-invoice slot. -/
def currentStatusOk : Option Invoice → Prop
  | none => True
  | some cur => statusOk cur

instance : DecidablePred currentStatusOk := fun o => by
  cases o <;> unfold currentStatusOk <;> infer_instance

/-- The status/metadata invariant over both cache slots. -/
def cacheStatusOk (s : InvoiceState) : Prop :=
  currentStatusOk s.currentInvoice ∧ ∀ inv ∈ s.invoices, statusOk inv

instance : DecidablePred cacheStatusOk := fun s => by
  unfold cacheStatusOk; infer_instance

/-- The condition `submitFieldFeedback` treats as a protocol error:
`!updatedInvoice || !updatedInvoice.id`, i.e. a null body or an
empty/missing `id`. -/
def invalidResp : Option Invoice → Bool
  | none => true
  | some r => decide (r.id = "")

/-- A store state with the given list and current slot, quiescent flags. -/
def mkState (l : List Invoice) (cur : Option Invoice) : InvoiceState :=
  { invoices := l, currentInvoice := cur, loading := false, error := none,
    total := l.length }

/-- Fixture: a processed invoice `"a"` with one recorded feedback vote. -/
def invA : Invoice :=
  { id := "a", userId := "u1", fileName := "a.pdf", storageUrl := "gs://a",
    status := InvoiceStatus.processed, uploadedAt := 100,
    processedAt := some 200,
    fieldFeedback :=
      some [("totalAmount",
             { vote := Vote.upvote, userId := "u1", timestamp := "t1" })] }

/-- Fixture: a server echo of invoice `"a"` with a changed feedback map. -/
def respA : Invoice :=
  { id := "a", userId := "u1", fileName := "a.pdf", storageUrl := "gs://a",
    status := InvoiceStatus.processed, uploadedAt := 100,
    processedAt := some 200,
    fieldFeedback :=
      some [("totalAmount",
             { vote := Vote.downvote, userId := "u2", timestamp := "t2" })] }

/-- Fixture: a server response carrying the foreign id `"b"`. -/
def respB : Invoice :=
  { id := "b", userId := "u1", fileName := "a.pdf", storageUrl := "gs://a",
    status := InvoiceStatus.processed, uploadedAt := 100,
    processedAt := some 200, fieldFeedback := some [] }

/-- Fixture: a failed invoice satisfying the status invariant. -/
def invFailed : Invoice :=
  { id := "a", userId := "u1", fileName := "a.pdf", storageUrl := "gs://a",
    status := InvoiceStatus.failed, uploadedAt := 100,
    processedAt := some 200, errorMessage := some "OCR failed" }

/-- Fixture: a processed echo of `"a"` with no `errorMessage` key,
satisfying the status invariant on its own. -/
def respProcessed : Invoice :=
  { id := "a", userId := "u1", fileName := "a.pdf", storageUrl := "gs://a",
    status := InvoiceStatus.processed, uploadedAt := 100,
    processedAt := some 300, fieldFeedback := some [] }

/-- Fixture invoices for the sort check: uploaded in January, March and
February 2024 (epoch milliseconds of 2024-01-01, 2024-03-01,
2024-02-01). -/
def invJan : Invoice :=
  { id := "jan", userId := "u1", fileName := "jan.pdf", storageUrl := "gs://jan",
    status := InvoiceStatus.processing, uploadedAt := 1704067200000 }

/-- See `invJan`. -/
def invMar : Invoice :=
  { id := "mar", userId := "u1", fileName := "mar.pdf", storageUrl := "gs://mar",
    status := InvoiceStatus.processing, uploadedAt := 1709251200000 }

/-- See `invJan`. -/
def invFeb : Invoice :=
  { id := "feb", userId := "u1", fileName := "feb.pdf", storageUrl := "gs://feb",
    status := InvoiceStatus.processing, uploadedAt := 1706745600000 }

instance {ε α : Type} [DecidableEq ε] [DecidableEq α] :
    DecidableEq (Except ε α)
  | Except.ok a, Except.ok b =>
      if h : a = b then isTrue (by rw [h])
      else isFalse (fun he => h (Except.ok.inj he))
  | Except.error a, Except.error b =>
      if h : a = b then isTrue (by rw [h])
      else isFalse (fun he => h (Except.error.inj he))
  | Except.ok _, Except.error _ => isFalse (fun he => Except.noConfusion he)
  | Except.error _, Except.ok _ => isFalse (fun he => Except.noConfusion he)

/-- `updateFirst` agrees with `findIndex` + element assignment: when the
first matching index is `j` holding `inv`, the result replaces index `j`
by the merge of `inv` with the response. -/
theorem updateFirst_eq_set (l : List Invoice) (key : String) (r : Invoice) :
    ∀ (j : Nat) (inv : Invoice),
      l.findIdx? (fun x => decide (x.id = key)) = some j →
      l[j]? = some inv →
      updateFirst l key r = l.set j (mergeInvoice inv r) := by
  induction l with
  | nil => intro j inv h _; simp at h
  | cons x xs ih =>
    intro j inv h hj
    rw [List.findIdx?_cons] at h
    by_cases hx : x.id = key
    · simp [hx] at h
      subst h
      simp only [List.getElem?_cons_zero, Option.some.injEq] at hj
      subst hj
      simp [updateFirst, hx]
    · simp [hx, List.findIdx?_start_succ, Option.map_eq_some'] at h
      obtain ⟨j', hj', rfl⟩ := h
      simp only [Nat.zero_add, List.getElem?_cons_succ] at hj
      simp [updateFirst, hx, ih j' inv hj' hj]

/-- When no list entry matches, `updateFirst` is the identity, matching
`findIndex` returning `-1`. -/
theorem updateFirst_eq_of_none (l : List Invoice) (key : String) (r : Invoice)
    (h : l.findIdx? (fun x => decide (x.id = key)) = none) :
    updateFirst l key r = l := by
  induction l with
  | nil => rfl
  | cons x xs ih =>
    rw [List.findIdx?_cons] at h
    by_cases hx : x.id = key
    · simp [hx] at h
    · simp [hx] at h
      have htail : List.findIdx? (fun x => decide (x.id = key)) xs = none := by
        simpa using h
      simp [updateFirst, hx, ih htail]

/-- Every element of `updateFirst l key r` is an original element or the
merge of a matching original element with the response. -/
theorem mem_updateFirst {l : List Invoice} {key : String} {r inv : Invoice}
    (h : inv ∈ updateFirst l key r) :
    inv ∈ l ∨ ∃ x, x ∈ l ∧ x.id = key ∧ inv = mergeInvoice x r := by
  induction l with
  | nil => simp [updateFirst] at h
  | cons x xs ih =>
    by_cases hx : x.id = key
    · simp only [updateFirst, hx, if_true, List.mem_cons] at h
      rcases h with h | h
      · exact Or.inr ⟨x, List.mem_cons_self x xs, hx, h⟩
      · exact Or.inl (List.mem_cons_of_mem x h)
    · simp only [updateFirst, hx, if_false, List.mem_cons] at h
      rcases h with rfl | h
      · exact Or.inl (List.mem_cons_self inv xs)
      · rcases ih h with h' | ⟨y, hy, hid, he⟩
        · exact Or.inl (List.mem_cons_of_mem x h')
        · exact Or.inr ⟨y, List.mem_cons_of_mem x hy, hid, he⟩

/-- In a duplicate-free list, an element of `updateFirst l key r` whose id
is `key` can only be the replaced entry, whose feedback map is the
response's. -/
theorem fieldFeedback_of_mem_updateFirst (l : List Invoice) (key : String)
    (r : Invoice) :
    ∀ inv : Invoice, (l.map Invoice.id).Nodup →
      inv ∈ updateFirst l key r → inv.id = key → r.id = key →
      inv.fieldFeedback = some (r.fieldFeedback.getD []) := by
  induction l with
  | nil => intro inv _ h; simp [updateFirst] at h
  | cons x xs ih =>
    intro inv hnd h hik hrk
    rw [List.map_cons, List.nodup_cons] at hnd
    by_cases hx : x.id = key
    · simp only [updateFirst, hx, if_true, List.mem_cons] at h
      rcases h with rfl | h
      · rfl
      · exact absurd (hx ▸ hik ▸ List.mem_map_of_mem Invoice.id h) hnd.1
    · simp only [updateFirst, hx, if_false, List.mem_cons] at h
      rcases h with rfl | h
      · exact absurd hik hx
      · exact ih inv hnd.2 h hik hrk

/-- The reconciler's shallow merge keeps the status/metadata invariant
when both sides satisfy it and agree on the status. -/
theorem statusOk_mergeInvoice {a r : Invoice} (ha : statusOk a)
    (hr : statusOk r) (hst : a.status = r.status) :
    statusOk (mergeInvoice a r) := by
  obtain ⟨ha1, ha2⟩ := ha
  obtain ⟨hr1, hr2⟩ := hr
  constructor
  · show r.status = InvoiceStatus.failed ↔
      (r.errorMessage <|> a.errorMessage).isSome = true
    cases hre : r.errorMessage with
    | some v =>
        simp only [hre, Option.some_orElse, Option.isSome_some]
        rw [hre] at hr1
        simpa using hr1
    | none =>
        simp only [hre, Option.none_orElse]
        have hrf : r.status ≠ InvoiceStatus.failed := by
          intro hf
          rw [hre] at hr1
          simpa using hr1.mp hf
        have hae : a.errorMessage.isSome ≠ true := by
          intro hs
          exact hrf (hst ▸ ha1.mpr hs)
        exact iff_of_false hrf hae
  · show r.status ≠ InvoiceStatus.processing ↔
      (r.processedAt <|> a.processedAt).isSome = true
    cases hrp : r.processedAt with
    | some v =>
        simp only [hrp, Option.some_orElse, Option.isSome_some]
        rw [hrp] at hr2
        simpa using hr2
    | none =>
        simp only [hrp, Option.none_orElse]
        have hrproc : r.status = InvoiceStatus.processing := by
          by_contra hne
          rw [hrp] at hr2
          simpa using hr2.mp hne
        have hap : a.processedAt.isSome ≠ true := by
          intro hs
          exact (hst ▸ ha2.mpr hs) hrproc
        exact iff_of_false (fun h => h hrproc) hap

/-- A validated feedback round-trip returns
`{ success: true, invoice: updatedInvoice }`. -/
theorem submit_ok_result (s : InvoiceState) (invoiceId fieldName : String)
    (vote : FeedbackVote) (r : Invoice) (hr : r.id ≠ "") :
    (submitFieldFeedback s invoiceId fieldName vote (Except.ok (some r))).2
      = Except.ok { success := true, invoice := r } := by
  unfold submitFieldFeedback submitFieldFeedbackDispatch
  dsimp only
  rw [if_neg hr]

/-- A validated feedback round-trip rewrites the list slot by
`updateFirst` and nothing else. -/
theorem submit_ok_invoices (s : InvoiceState) (invoiceId fieldName : String)
    (vote : FeedbackVote) (r : Invoice) (hr : r.id ≠ "") :
    (submitFieldFeedback s invoiceId fieldName vote (Except.ok (some r))).1.invoices
      = updateFirst s.invoices invoiceId r := by
  unfold submitFieldFeedback submitFieldFeedbackDispatch
  dsimp only
  rw [if_neg hr]
  cases hc : s.currentInvoice with
  | none => simp [hc]
  | some c =>
      by_cases hid : c.id = invoiceId <;> simp [hc, hid]

/-- When the current slot holds the submitted id, the round-trip replaces
it by the shallow merge with the response. -/
theorem submit_ok_current_match (s : InvoiceState) (invoiceId fieldName : String)
    (vote : FeedbackVote) (r cur : Invoice) (hr : r.id ≠ "")
    (hc : s.currentInvoice = some cur) (hcid : cur.id = invoiceId) :
    (submitFieldFeedback s invoiceId fieldName vote (Except.ok (some r))).1.currentInvoice
      = some (mergeInvoice cur r) := by
  unfold submitFieldFeedback submitFieldFeedbackDispatch
  dsimp only
  rw [if_neg hr]
  simp [hc, hcid]

/-- When the current slot is empty or holds another id, the round-trip
leaves it alone. -/
theorem submit_ok_current_miss (s : InvoiceState) (invoiceId fieldName : String)
    (vote : FeedbackVote) (r : Invoice) (hr : r.id ≠ "")
    (hmiss : ∀ c, s.currentInvoice = some c → c.id ≠ invoiceId) :
    (submitFieldFeedback s invoiceId fieldName vote (Except.ok (some r))).1.currentInvoice
      = s.currentInvoice := by
  unfold submitFieldFeedback submitFieldFeedbackDispatch
  dsimp only
  rw [if_neg hr]
  cases hc : s.currentInvoice with
  | none => simp [hc]
  | some c => simp [hc, hmiss c hc]

/-- A validated feedback round-trip never touches the loading flag. -/
theorem submit_ok_loading (s : InvoiceState) (invoiceId fieldName : String)
    (vote : FeedbackVote) (resp : Except ApiErr (Option Invoice)) :
    (submitFieldFeedback s invoiceId fieldName vote resp).1.loading = s.loading := by
  unfold submitFieldFeedback submitFieldFeedbackDispatch
  rcases resp with e | ro
  · rfl
  · cases ro with
    | none => rfl
    | some r =>
        by_cases hr : r.id = ""
        · simp [hr]
        · dsimp only
          rw [if_neg hr]
          cases hc : s.currentInvoice with
          | none => simp [hc]
          | some c => by_cases hid : c.id = invoiceId <;> simp [hc, hid]

/-- A validated feedback round-trip clears the error slot. -/
theorem submit_ok_error (s : InvoiceState) (invoiceId fieldName : String)
    (vote : FeedbackVote) (r : Invoice) (hr : r.id ≠ "") :
    (submitFieldFeedback s invoiceId fieldName vote (Except.ok (some r))).1.error
      = none := by
  unfold submitFieldFeedback submitFieldFeedbackDispatch
  dsimp only
  rw [if_neg hr]
  cases hc : s.currentInvoice with
  | none => simp [hc]
  | some c => by_cases hid : c.id = invoiceId <;> simp [hc, hid]

/-- C9: `sortedInvoices` is always a reverse-chronological view of the
cached list — descending in `uploadedAt` and a permutation of the list,
whatever order the server delivered — and on uploads dated 2024-01-01,
2024-03-01, 2024-02-01 it yields the order March, February, January. -/
theorem sortedInvoices_reverse_chronological :
    (∀ s : InvoiceState,
        (sortedInvoices s).Pairwise (fun a b => b.uploadedAt ≤ a.uploadedAt) ∧
        (sortedInvoices s).Perm s.invoices) ∧
    sortedInvoices (mkState [invJan, invMar, invFeb] none) =
      [invMar, invFeb, invJan] := by
  constructor
  · intro s
    constructor
    · haveI : IsTotal Invoice (fun a b => b.uploadedAt ≤ a.uploadedAt) :=
        ⟨fun a b => le_total b.uploadedAt a.uploadedAt⟩
      haveI : IsTrans Invoice (fun a b => b.uploadedAt ≤ a.uploadedAt) :=
        ⟨fun _ _ _ hab hbc => le_trans hbc hab⟩
      exact List.sorted_insertionSort _ _
    · exact List.perm_insertionSort _ _
  · decide

/-- C4: when the gateway's list call fails on a state with a populated
list, `fetchInvoices` keeps the cached list and total untouched, stores a
non-empty human-readable message in the error slot, and re-raises the
error to the caller. -/
theorem fetchInvoices_failure_preserves (s : InvoiceState)
    (q : Option InvoiceQuery) (e : ApiErr) (hpop : s.invoices ≠ []) :
    (fetchInvoices s q (fun _ => Except.error e)).1.invoices = s.invoices ∧
    (fetchInvoices s q (fun _ => Except.error e)).1.total = s.total ∧
    (fetchInvoices s q (fun _ => Except.error e)).1.error =
      some (errText e "Failed to fetch invoices") ∧
    errText e "Failed to fetch invoices" ≠ "" ∧
    (fetchInvoices s q (fun _ => Except.error e)).2 = Except.error e := by
  refine ⟨rfl, rfl, rfl, ?_, rfl⟩
  unfold errText
  by_cases hm : e.message = ""
  · rw [if_pos hm]; decide
  · rw [if_neg hm]; exact hm

/-- Witness for C4: a one-invoice list and a messageless gateway error. -/
theorem fetchInvoices_failure_preserves_witness :
    (mkState [invA] none).invoices ≠ [] ∧
    (fetchInvoices (mkState [invA] none) none
        (fun _ => Except.error ⟨""⟩)).1.invoices = [invA] ∧
    (fetchInvoices (mkState [invA] none) none
        (fun _ => Except.error ⟨""⟩)).1.error =
      some "Failed to fetch invoices" ∧
    (fetchInvoices (mkState [invA] none) none
        (fun _ => Except.error ⟨""⟩)).2 = Except.error ⟨""⟩ := by
  have h := fetchInvoices_failure_preserves (mkState [invA] none) none ⟨""⟩
    (by decide)
  exact ⟨by decide, h.1, h.2.2.1, h.2.2.2.2⟩

/-- C8: `uploadInvoice` always refreshes the list through a no-query
`fetchInvoices` after a successful upload — the cached list and total
become whatever the default-order list call returns, a failing refresh is
re-raised — and the caller receives the gateway's upload acknowledgment
stub, not an Invoice. -/
theorem uploadInvoice_composition (s : InvoiceState) (r : InvoiceResponse)
    (lr : InvoiceListResponse) (e : ApiErr)
    (gw : Option InvoiceQuery → Except ApiErr InvoiceListResponse) :
    (gw none = Except.ok lr →
      (uploadInvoice s (Except.ok r) gw).2 = Except.ok r ∧
      (uploadInvoice s (Except.ok r) gw).1.invoices = lr.invoices ∧
      (uploadInvoice s (Except.ok r) gw).1.total = lr.total) ∧
    (gw none = Except.error e →
      (uploadInvoice s (Except.ok r) gw).2 = Except.error e) := by
  constructor
  · intro h
    simp [uploadInvoice, uploadInvoiceDispatch, fetchInvoices,
      fetchInvoicesDispatch, h]
  · intro h
    simp [uploadInvoice, uploadInvoiceDispatch, fetchInvoices,
      fetchInvoicesDispatch, h]

/-- Witness for C8: a successful upload with a refresh returning `[invA]`,
and one whose refresh fails. -/
theorem uploadInvoice_composition_witness :
    ((uploadInvoice (mkState [] none)
        (Except.ok ⟨"new", "f.pdf", "processing", none⟩)
        (fun _ => Except.ok ⟨[invA], 1⟩)).2
      = Except.ok ⟨"new", "f.pdf", "processing", none⟩) ∧
    ((uploadInvoice (mkState [] none)
        (Except.ok ⟨"new", "f.pdf", "processing", none⟩)
        (fun _ => Except.ok ⟨[invA], 1⟩)).1.invoices = [invA]) ∧
    ((uploadInvoice (mkState [] none)
        (Except.ok ⟨"new", "f.pdf", "processing", none⟩)
        (fun _ => Except.error ⟨"down"⟩)).2 = Except.error ⟨"down"⟩) := by
  have h1 := (uploadInvoice_composition (mkState [] none)
    ⟨"new", "f.pdf", "processing", none⟩ ⟨[invA], 1⟩ ⟨"down"⟩
    (fun _ => Except.ok ⟨[invA], 1⟩)).1 rfl
  have h2 := (uploadInvoice_composition (mkState [] none)
    ⟨"new", "f.pdf", "processing", none⟩ ⟨[invA], 1⟩ ⟨"down"⟩
    (fun _ => Except.error ⟨"down"⟩)).2 rfl
  exact ⟨h1.1, h1.2.1, h2⟩

/-- C7 counterexample: `submitFieldFeedback` completes successfully while
the loading flag, true beforehand, stays true — it has no
`finally`-equivalent cleanup because it manages no loading flag at all. -/
theorem submitFieldFeedback_leaves_loading_set :
    (submitFieldFeedback
        { invoices := [invA], currentInvoice := some invA, loading := true,
          error := none, total := 1 }
        "a" "totalAmount" FeedbackVote.upvote (Except.ok (some respA))).2
      = Except.ok { success := true, invoice := respA } ∧
    (submitFieldFeedback
        { invoices := [invA], currentInvoice := some invA, loading := true,
          error := none, total := 1 }
        "a" "totalAmount" FeedbackVote.upvote (Except.ok (some respA))).1.loading
      = true := by decide

/-- C7 amended: the four loading-managed operations (`fetchInvoices`,
`uploadInvoice`, `fetchInvoiceDetail`, `getDownloadUrl`) end with the
loading flag false on every outcome, while `submitFieldFeedback` never
touches the flag, leaving it exactly as it found it. -/
theorem loading_flag_semantics (s : InvoiceState) (q : Option InvoiceQuery)
    (invoiceId fieldName : String) (vote : FeedbackVote)
    (gw : Option InvoiceQuery → Except ApiErr InvoiceListResponse)
    (uresp : Except ApiErr InvoiceResponse) (dresp : Except ApiErr Invoice)
    (wresp : Except ApiErr String) (fresp : Except ApiErr (Option Invoice)) :
    (fetchInvoices s q gw).1.loading = false ∧
    (uploadInvoice s uresp gw).1.loading = false ∧
    (fetchInvoiceDetail s invoiceId dresp).1.loading = false ∧
    (getDownloadUrl s invoiceId wresp).1.loading = false ∧
    (submitFieldFeedback s invoiceId fieldName vote fresp).1.loading
      = s.loading := by
  refine ⟨?_, ?_, ?_, ?_, submit_ok_loading s invoiceId fieldName vote fresp⟩
  · cases hgw : gw q <;>
      simp [fetchInvoices, fetchInvoicesDispatch, hgw]
  · rcases uresp with e | r
    · simp [uploadInvoice, uploadInvoiceDispatch]
    · cases hgw : gw none <;>
        simp [uploadInvoice, uploadInvoiceDispatch, fetchInvoices,
          fetchInvoicesDispatch, hgw]
  · cases dresp <;> simp [fetchInvoiceDetail, fetchInvoiceDetailDispatch]
  · cases wresp <;> simp [getDownloadUrl, getDownloadUrlDispatch]

/-- C10: every gateway-calling operation clears the error slot at
dispatch, before its request resolves, and each of them leaves the slot
clear after a successful round-trip. -/
theorem error_reset_semantics (s : InvoiceState) (q : Option InvoiceQuery)
    (invoiceId fieldName url : String) (vote : FeedbackVote)
    (lr : InvoiceListResponse) (r : InvoiceResponse) (inv r2 : Invoice)
    (hr2 : r2.id ≠ "") :
    (fetchInvoicesDispatch s).error = none ∧
    (uploadInvoiceDispatch s).error = none ∧
    (fetchInvoiceDetailDispatch s).error = none ∧
    (getDownloadUrlDispatch s).error = none ∧
    (submitFieldFeedbackDispatch s).error = none ∧
    (fetchInvoices s q (fun _ => Except.ok lr)).1.error = none ∧
    (uploadInvoice s (Except.ok r) (fun _ => Except.ok lr)).1.error = none ∧
    (fetchInvoiceDetail s invoiceId (Except.ok inv)).1.error = none ∧
    (getDownloadUrl s invoiceId (Except.ok url)).1.error = none ∧
    (submitFieldFeedback s invoiceId fieldName vote
        (Except.ok (some r2))).1.error = none := by
  refine ⟨rfl, rfl, rfl, rfl, rfl, rfl, ?_, rfl, rfl,
    submit_ok_error s invoiceId fieldName vote r2 hr2⟩
  simp [uploadInvoice, uploadInvoiceDispatch, fetchInvoices,
    fetchInvoicesDispatch]

/-- Witness for C10: a fresh state after a previous failure, concrete
successful responses everywhere. -/
theorem error_reset_semantics_witness :
    (fetchInvoicesDispatch
        { invoices := [], currentInvoice := none, loading := false,
          error := some "previous failure", total := 0 }).error = none ∧
    (submitFieldFeedback
        { invoices := [], currentInvoice := none, loading := false,
          error := some "previous failure", total := 0 }
        "a" "totalAmount" FeedbackVote.upvote
        (Except.ok (some respA))).1.error = none := by
  have h := error_reset_semantics
    { invoices := [], currentInvoice := none, loading := false,
      error := some "previous failure", total := 0 }
    none "a" "totalAmount" "u" FeedbackVote.upvote ⟨[], 0⟩
    ⟨"new", "f.pdf", "processing", none⟩ invA respA (by decide)
  exact ⟨h.1, h.2.2.2.2.2.2.2.2.2⟩

/-- C1: on a successful validated feedback round-trip with response `r`,
(1) a current slot holding the submitted id is replaced by the shallow
merge with `r`, whose feedback map is `r`'s map outright (empty when
absent, never a per-key merge); (2) the first list entry with the
submitted id receives the identical replacement; (3) when neither slot
holds the id, both slots are left untouched; and the caller receives the
result. -/
theorem submitFieldFeedback_reconciliation (s : InvoiceState)
    (invoiceId fieldName : String) (vote : FeedbackVote) (r cur inv : Invoice)
    (j : Nat) (hr : r.id ≠ "") :
    (s.currentInvoice = some cur → cur.id = invoiceId →
      (submitFieldFeedback s invoiceId fieldName vote
          (Except.ok (some r))).1.currentInvoice = some (mergeInvoice cur r)) ∧
    (mergeInvoice cur r).fieldFeedback = some (r.fieldFeedback.getD []) ∧
    (s.invoices.findIdx? (fun x => decide (x.id = invoiceId)) = some j →
      s.invoices[j]? = some inv →
      (submitFieldFeedback s invoiceId fieldName vote
          (Except.ok (some r))).1.invoices
        = s.invoices.set j (mergeInvoice inv r)) ∧
    ((∀ c, s.currentInvoice = some c → c.id ≠ invoiceId) →
      (submitFieldFeedback s invoiceId fieldName vote
          (Except.ok (some r))).1.currentInvoice = s.currentInvoice) ∧
    (s.invoices.findIdx? (fun x => decide (x.id = invoiceId)) = none →
      (submitFieldFeedback s invoiceId fieldName vote
          (Except.ok (some r))).1.invoices = s.invoices) ∧
    (submitFieldFeedback s invoiceId fieldName vote (Except.ok (some r))).2
      = Except.ok { success := true, invoice := r } := by
  refine ⟨?_, rfl, ?_, ?_, ?_, submit_ok_result s invoiceId fieldName vote r hr⟩
  · intro hc hcid
    exact submit_ok_current_match s invoiceId fieldName vote r cur hr hc hcid
  · intro hidx hget
    rw [submit_ok_invoices s invoiceId fieldName vote r hr]
    exact updateFirst_eq_set s.invoices invoiceId r j inv hidx hget
  · intro hmiss
    exact submit_ok_current_miss s invoiceId fieldName vote r hr hmiss
  · intro hnone
    rw [submit_ok_invoices s invoiceId fieldName vote r hr]
    exact updateFirst_eq_of_none s.invoices invoiceId r hnone

/-- Witness for C1: current slot and a singleton list both hold `"a"`;
the response `respA` replaces both. -/
theorem submitFieldFeedback_reconciliation_witness :
    respA.id ≠ "" ∧
    (mkState [invA] (some invA)).currentInvoice = some invA ∧
    invA.id = "a" ∧
    ((mkState [invA] (some invA)).invoices.findIdx?
        (fun x => decide (x.id = "a")) = some 0) ∧
    (mkState [invA] (some invA)).invoices[0]? = some invA ∧
    (submitFieldFeedback (mkState [invA] (some invA)) "a" "totalAmount"
        FeedbackVote.upvote (Except.ok (some respA))).1.currentInvoice
      = some (mergeInvoice invA respA) ∧
    (submitFieldFeedback (mkState [invA] (some invA)) "a" "totalAmount"
        FeedbackVote.upvote (Except.ok (some respA))).1.invoices
      = [invA].set 0 (mergeInvoice invA respA) := by
  have h := submitFieldFeedback_reconciliation (mkState [invA] (some invA))
    "a" "totalAmount" FeedbackVote.upvote respA invA invA 0 (by decide)
  exact ⟨by decide, by decide, by decide, by decide, by decide,
    h.1 rfl (by decide), h.2.2.1 (by decide) (by decide)⟩

/-- C2: after a successful feedback round-trip on a duplicate-free list,
whenever the current slot and a list entry both hold the submitted id,
their feedback maps coincide. -/
theorem submit_list_current_consistency (s : InvoiceState)
    (invoiceId fieldName : String) (vote : FeedbackVote) (r cur inv : Invoice)
    (hnd : (s.invoices.map Invoice.id).Nodup) (hr : r.id ≠ "")
    (hcur : (submitFieldFeedback s invoiceId fieldName vote
        (Except.ok (some r))).1.currentInvoice = some cur)
    (hcid : cur.id = invoiceId)
    (hinv : inv ∈ (submitFieldFeedback s invoiceId fieldName vote
        (Except.ok (some r))).1.invoices)
    (hiid : inv.id = invoiceId) :
    cur.fieldFeedback = inv.fieldFeedback := by
  rw [submit_ok_invoices s invoiceId fieldName vote r hr] at hinv
  cases hc : s.currentInvoice with
  | none =>
      rw [submit_ok_current_miss s invoiceId fieldName vote r hr
        (fun c h => by rw [hc] at h; cases h), hc] at hcur
      cases hcur
  | some c =>
      by_cases hmatch : c.id = invoiceId
      · rw [submit_ok_current_match s invoiceId fieldName vote r c hr hc
          hmatch] at hcur
        obtain rfl : mergeInvoice c r = cur := Option.some.inj hcur
        have hrid : r.id = invoiceId := hcid
        rw [fieldFeedback_of_mem_updateFirst s.invoices invoiceId r inv hnd
          hinv hiid hrid]
        rfl
      · rw [submit_ok_current_miss s invoiceId fieldName vote r hr
          (fun c' h => by
            rw [hc] at h
            rw [← Option.some.inj h]
            exact hmatch), hc] at hcur
        obtain rfl : c = cur := Option.some.inj hcur
        exact absurd hcid hmatch

/-- Witness for C2: both slots hold `"a"`, the server echo replaces both
with the same feedback map. -/
theorem submit_list_current_consistency_witness :
    ((mkState [invA] (some invA)).invoices.map Invoice.id).Nodup ∧
    respA.id ≠ "" ∧
    (submitFieldFeedback (mkState [invA] (some invA)) "a" "totalAmount"
        FeedbackVote.upvote (Except.ok (some respA))).1.currentInvoice
      = some (mergeInvoice invA respA) ∧
    (mergeInvoice invA respA).id = "a" ∧
    mergeInvoice invA respA ∈
      (submitFieldFeedback (mkState [invA] (some invA)) "a" "totalAmount"
        FeedbackVote.upvote (Except.ok (some respA))).1.invoices ∧
    (mergeInvoice invA respA).fieldFeedback
      = (mergeInvoice invA respA).fieldFeedback := by
  refine ⟨by decide, by decide, by decide, by decide, by decide, ?_⟩
  exact submit_list_current_consistency (mkState [invA] (some invA))
    "a" "totalAmount" FeedbackVote.upvote respA (mergeInvoice invA respA)
    (mergeInvoice invA respA) (by decide) (by decide) (by decide) (by decide)
    (by decide) (by decide)

/-- C3 counterexample: a response whose non-empty id `"b"` differs from
the submitted id `"a"` is not treated as a protocol error — the operation
succeeds and still replaces the matching current slot. -/
theorem submit_accepts_foreign_id :
    respB.id ≠ "a" ∧ respB.id ≠ "" ∧
    (submitFieldFeedback (mkState [invA] (some invA)) "a" "totalAmount"
        FeedbackVote.upvote (Except.ok (some respB))).2
      = Except.ok { success := true, invoice := respB } ∧
    (submitFieldFeedback (mkState [invA] (some invA)) "a" "totalAmount"
        FeedbackVote.upvote (Except.ok (some respB))).1.currentInvoice
      = some (mergeInvoice invA respB) ∧
    mergeInvoice invA respB ≠ invA := by decide

/-- C3 amended: the round-trip raises the protocol error — leaving both
cache slots untouched — exactly for a null response or an empty/missing
response id; any response with a non-empty id, matching the submitted
invoice or not, is accepted. -/
theorem submit_response_validation (s : InvoiceState)
    (invoiceId fieldName : String) (vote : FeedbackVote) (ro : Option Invoice)
    (r : Invoice) :
    (invalidResp ro = true →
      (submitFieldFeedback s invoiceId fieldName vote (Except.ok ro)).2
        = Except.error ⟨"Invalid response from server"⟩ ∧
      (submitFieldFeedback s invoiceId fieldName vote (Except.ok ro)).1.invoices
        = s.invoices ∧
      (submitFieldFeedback s invoiceId fieldName vote
          (Except.ok ro)).1.currentInvoice = s.currentInvoice ∧
      (submitFieldFeedback s invoiceId fieldName vote (Except.ok ro)).1.error
        = some "Invalid response from server") ∧
    (ro = some r → r.id ≠ "" →
      (submitFieldFeedback s invoiceId fieldName vote (Except.ok ro)).2
        = Except.ok { success := true, invoice := r }) := by
  constructor
  · intro h
    cases ro with
    | none => exact ⟨rfl, rfl, rfl, rfl⟩
    | some r' =>
        have hid : r'.id = "" := by simpa [invalidResp] using h
        unfold submitFieldFeedback submitFieldFeedbackDispatch
        dsimp only
        rw [if_pos hid]
        exact ⟨rfl, rfl, rfl, rfl⟩
  · rintro rfl hr
    exact submit_ok_result s invoiceId fieldName vote r hr

/-- Witness for C3 amended: a null response is rejected without touching
the cache; `respA` (non-empty id) is accepted. -/
theorem submit_response_validation_witness :
    invalidResp none = true ∧
    (submitFieldFeedback (mkState [invA] (some invA)) "a" "totalAmount"
        FeedbackVote.upvote (Except.ok none)).2
      = Except.error ⟨"Invalid response from server"⟩ ∧
    (submitFieldFeedback (mkState [invA] (some invA)) "a" "totalAmount"
        FeedbackVote.upvote (Except.ok none)).1.invoices = [invA] ∧
    some respA = some respA ∧ respA.id ≠ "" ∧
    (submitFieldFeedback (mkState [invA] (some invA)) "a" "totalAmount"
        FeedbackVote.upvote (Except.ok (some respA))).2
      = Except.ok { success := true, invoice := respA } := by
  have h1 := (submit_response_validation (mkState [invA] (some invA))
    "a" "totalAmount" FeedbackVote.upvote none respA).1 (by decide)
  have h2 := (submit_response_validation (mkState [invA] (some invA))
    "a" "totalAmount" FeedbackVote.upvote (some respA) respA).2 rfl (by decide)
  exact ⟨by decide, h1.1, h1.2.1, rfl, by decide, h2⟩

/-- C5: `submitFieldFeedback` never fails fast — with an empty or
mismatching current slot it still consumes the gateway round-trip,
succeeds, leaves the current slot alone, and applies the replacement to
the first matching list entry. -/
theorem submitFieldFeedback_no_fail_fast (s : InvoiceState)
    (invoiceId fieldName : String) (vote : FeedbackVote) (r inv : Invoice)
    (j : Nat) (hr : r.id ≠ "")
    (hmiss : ∀ c, s.currentInvoice = some c → c.id ≠ invoiceId) :
    (submitFieldFeedback s invoiceId fieldName vote (Except.ok (some r))).2
      = Except.ok { success := true, invoice := r } ∧
    (submitFieldFeedback s invoiceId fieldName vote
        (Except.ok (some r))).1.currentInvoice = s.currentInvoice ∧
    (s.invoices.findIdx? (fun x => decide (x.id = invoiceId)) = some j →
      s.invoices[j]? = some inv →
      (submitFieldFeedback s invoiceId fieldName vote
          (Except.ok (some r))).1.invoices
        = s.invoices.set j (mergeInvoice inv r)) := by
  refine ⟨submit_ok_result s invoiceId fieldName vote r hr,
    submit_ok_current_miss s invoiceId fieldName vote r hr hmiss, ?_⟩
  intro hidx hget
  rw [submit_ok_invoices s invoiceId fieldName vote r hr]
  exact updateFirst_eq_set s.invoices invoiceId r j inv hidx hget

/-- Witness for C5: empty current slot, list containing `"a"`. -/
theorem submitFieldFeedback_no_fail_fast_witness :
    respA.id ≠ "" ∧
    (submitFieldFeedback (mkState [invA] none) "a" "totalAmount"
        FeedbackVote.upvote (Except.ok (some respA))).2
      = Except.ok { success := true, invoice := respA } ∧
    (submitFieldFeedback (mkState [invA] none) "a" "totalAmount"
        FeedbackVote.upvote (Except.ok (some respA))).1.currentInvoice
      = none ∧
    (submitFieldFeedback (mkState [invA] none) "a" "totalAmount"
        FeedbackVote.upvote (Except.ok (some respA))).1.invoices
      = [invA].set 0 (mergeInvoice invA respA) := by
  have h := submitFieldFeedback_no_fail_fast (mkState [invA] none)
    "a" "totalAmount" FeedbackVote.upvote respA invA 0 (by decide)
    (fun c hx => by cases hx)
  exact ⟨by decide, h.1, h.2.1, h.2.2 (by decide) (by decide)⟩

/-- C6 counterexample: both the cached copy (failed, with `errorMessage`)
and the server echo (processed, without one) satisfy the status/metadata
invariant, yet the shallow merge installed by `submitFieldFeedback`
retains the stale `errorMessage` next to the new status, violating it. -/
theorem submit_merge_breaks_status_invariant :
    statusOk invFailed ∧ statusOk respProcessed ∧
    (submitFieldFeedback (mkState [] (some invFailed)) "a" "totalAmount"
        FeedbackVote.upvote (Except.ok (some respProcessed))).1.currentInvoice
      = some (mergeInvoice invFailed respProcessed) ∧
    ¬ statusOk (mergeInvoice invFailed respProcessed) := by decide

/-- C6 amended: all wholesale-replacing operations preserve the
status/metadata invariant whenever the gateway's invoices satisfy it; the
feedback merge additionally needs the response to carry the same status
as each cached copy it is merged into, because the shallow spread keeps a
stale `errorMessage`/`processedAt` when the response omits the key. -/
theorem cacheStatusOk_preserved (s : InvoiceState) (q : Option InvoiceQuery)
    (invoiceId fieldName : String) (vote : FeedbackVote)
    (gw : Option InvoiceQuery → Except ApiErr InvoiceListResponse)
    (uresp : Except ApiErr InvoiceResponse) (dresp : Except ApiErr Invoice)
    (wresp : Except ApiErr String) (fresp : Except ApiErr (Option Invoice))
    (hs : cacheStatusOk s)
    (hgw : ∀ q' lr, gw q' = Except.ok lr → ∀ inv ∈ lr.invoices, statusOk inv)
    (hd : ∀ inv, dresp = Except.ok inv → statusOk inv)
    (hf : ∀ r, fresp = Except.ok (some r) → statusOk r ∧
      (∀ c, s.currentInvoice = some c → c.id = invoiceId →
        c.status = r.status) ∧
      (∀ inv ∈ s.invoices, inv.id = invoiceId → inv.status = r.status)) :
    cacheStatusOk (fetchInvoices s q gw).1 ∧
    cacheStatusOk (uploadInvoice s uresp gw).1 ∧
    cacheStatusOk (fetchInvoiceDetail s invoiceId dresp).1 ∧
    cacheStatusOk (getDownloadUrl s invoiceId wresp).1 ∧
    cacheStatusOk (submitFieldFeedback s invoiceId fieldName vote fresp).1 := by
  obtain ⟨hcur, hlist⟩ := hs
  refine ⟨?_, ?_, ?_, ?_, ?_⟩
  · cases hq : gw q with
    | ok lr =>
        exact ⟨by simpa [fetchInvoices, fetchInvoicesDispatch, hq,
            currentStatusOk] using hcur,
          by simpa [fetchInvoices, fetchInvoicesDispatch, hq] using
            hgw q lr hq⟩
    | error e =>
        exact ⟨by simpa [fetchInvoices, fetchInvoicesDispatch, hq,
            currentStatusOk] using hcur,
          by simpa [fetchInvoices, fetchInvoicesDispatch, hq] using hlist⟩
  · rcases uresp with e | r
    · exact ⟨by simpa [uploadInvoice, uploadInvoiceDispatch,
          currentStatusOk] using hcur,
        by simpa [uploadInvoice, uploadInvoiceDispatch] using hlist⟩
    · cases hq : gw none with
      | ok lr =>
          exact ⟨by simpa [uploadInvoice, uploadInvoiceDispatch,
              fetchInvoices, fetchInvoicesDispatch, hq,
              currentStatusOk] using hcur,
            by simpa [uploadInvoice, uploadInvoiceDispatch, fetchInvoices,
              fetchInvoicesDispatch, hq] using hgw none lr hq⟩
      | error e =>
          exact ⟨by simpa [uploadInvoice, uploadInvoiceDispatch,
              fetchInvoices, fetchInvoicesDispatch, hq,
              currentStatusOk] using hcur,
            by simpa [uploadInvoice, uploadInvoiceDispatch, fetchInvoices,
              fetchInvoicesDispatch, hq] using hlist⟩
  · rcases dresp with e | inv
    · exact ⟨by simpa [fetchInvoiceDetail, fetchInvoiceDetailDispatch,
          currentStatusOk] using hcur,
        by simpa [fetchInvoiceDetail, fetchInvoiceDetailDispatch] using hlist⟩
    · exact ⟨by simpa [fetchInvoiceDetail, fetchInvoiceDetailDispatch,
          currentStatusOk] using hd inv rfl,
        by simpa [fetchInvoiceDetail, fetchInvoiceDetailDispatch] using hlist⟩
  · rcases wresp with e | url
    · exact ⟨by simpa [getDownloadUrl, getDownloadUrlDispatch,
          currentStatusOk] using hcur,
        by simpa [getDownloadUrl, getDownloadUrlDispatch] using hlist⟩
    · exact ⟨by simpa [getDownloadUrl, getDownloadUrlDispatch,
          currentStatusOk] using hcur,
        by simpa [getDownloadUrl, getDownloadUrlDispatch] using hlist⟩
  · rcases fresp with e | ro
    · exact ⟨by simpa [submitFieldFeedback, submitFieldFeedbackDispatch,
          currentStatusOk] using hcur,
        by simpa [submitFieldFeedback, submitFieldFeedbackDispatch] using
          hlist⟩
    · cases ro with
      | none =>
          exact ⟨by simpa [submitFieldFeedback, submitFieldFeedbackDispatch,
              currentStatusOk] using hcur,
            by simpa [submitFieldFeedback, submitFieldFeedbackDispatch] using
              hlist⟩
      | some r =>
          obtain ⟨hrok, hcstat, hlstat⟩ := hf r rfl
          by_cases hrid : r.id = ""
          · exact ⟨by simpa [submitFieldFeedback, submitFieldFeedbackDispatch,
                hrid, currentStatusOk] using hcur,
              by simpa [submitFieldFeedback, submitFieldFeedbackDispatch,
                hrid] using hlist⟩
          · constructor
            · cases hc : s.currentInvoice with
              | none =>
                  rw [submit_ok_current_miss s invoiceId fieldName vote r hrid
                    (fun c h => by rw [hc] at h; cases h), hc]
                  exact trivial
              | some c =>
                  by_cases hmatch : c.id = invoiceId
                  · rw [submit_ok_current_match s invoiceId fieldName vote r c
                      hrid hc hmatch]
                    have hcs : statusOk c := by
                      simpa [hc, currentStatusOk] using hcur
                    exact statusOk_mergeInvoice hcs hrok (hcstat c hc hmatch)
                  · rw [submit_ok_current_miss s invoiceId fieldName vote r
                      hrid (fun c' h => by
                        rw [hc] at h
                        rw [← Option.some.inj h]
                        exact hmatch), hc]
                    simpa [hc, currentStatusOk] using hcur
            · intro inv hinv
              rw [submit_ok_invoices s invoiceId fieldName vote r hrid]
                at hinv
              rcases mem_updateFirst hinv with hmem | ⟨x, hx, hxid, rfl⟩
              · exact hlist inv hmem
              · exact statusOk_mergeInvoice (hlist x hx) hrok
                  (hlstat x hx hxid)

/-- Witness for C6 amended: all responses fail except a feedback echo for
an invoice whose cached copies share its status. -/
theorem cacheStatusOk_preserved_witness :
    cacheStatusOk (mkState [invA] (some invA)) ∧
    cacheStatusOk (submitFieldFeedback (mkState [invA] (some invA)) "a"
        "totalAmount" FeedbackVote.upvote (Except.ok (some respA))).1 := by
  have h := cacheStatusOk_preserved (mkState [invA] (some invA)) none
    "a" "totalAmount" FeedbackVote.upvote (fun _ => Except.error ⟨"down"⟩)
    (Except.error ⟨"down"⟩) (Except.error ⟨"down"⟩) (Except.error ⟨"down"⟩)
    (Except.ok (some respA)) (by decide)
    (fun q' lr hq => by cases hq)
    (fun inv hq => by cases hq)
    (fun r hq => by
      obtain rfl : respA = r := Option.some.inj (Except.ok.inj hq)
      exact ⟨by decide, fun c hc hid => by
          rw [← Option.some.inj hc]; decide,
        fun inv hinv hid => by
          have : inv = invA := by simpa [mkState] using hinv
          rw [this]; decide⟩)
  exact ⟨by decide, h.2.2.2.2⟩

end InvoiceAnalisis
